import Mathlib

/-
Verification of the RelaySMS Bridge email client
(src/simplelogin/api.py and src/simplelogin/client.py).

The HTTP layer (python requests) and the SMTP layer (smtplib) are modelled by
an explicit environment (Env) that fixes the outcome of every external call.
Each embedded function returns the Python return value of the corresponding
source function -- with an escaping Python exception modelled as Except.error
-- paired with the ordered list of external interactions (events) it performed.
-/

set_option autoImplicit false

deriving instance DecidableEq for Except

namespace Bridge

/-- A Python exception escaping the modelled code. -/
inductive PyExn where
  /-- AttributeError raised when the except-handler evaluates
  e.response.json() while e.response is None. -/
  | attributeError
  /-- Any smtplib exception (connect, starttls, login, sendmail, quit). -/
  | smtpException
  deriving DecidableEq

/-- Outcome of one HTTP request issued through python-requests: a 2xx response
whose JSON body has the expected shape; a non-2xx response, for which
raise_for_status raises an HTTPError carrying the response (whose body parses
as JSON, from which the handler extracts an error message for logging); or a
RequestException carrying no response at all (connection error, timeout). -/
inductive ReqOutcome (α : Type) where
  | ok (body : α)
  | httpError
  | netError
  deriving DecidableEq

/-- An alias record as returned by the SimpleLogin API (the fields used by the
client: the numeric id and the alias email). -/
structure Alias where
  id : Nat
  email : String
  deriving DecidableEq

/-- A mailbox record as returned by the SimpleLogin API. -/
structure Mailbox where
  id : Nat
  email : String
  deriving DecidableEq

/-- One entry of the suffixes list returned by GET /v5/alias/options:
a plain suffix string together with its server-signed token. -/
structure SuffixEntry where
  suffix : String
  signed_suffix : String
  deriving DecidableEq

/-- A contact record as returned by POST /aliases/(id)/contacts. -/
structure Contact where
  contact : String
  reverse_alias : String
  existed : Bool
  deriving DecidableEq

/-- The JSON body posted to /v3/alias/custom/new.  The field alias_pfx models
the source field named alias underscore prefix (that source spelling is not a
legal identifier here). -/
structure CreateAliasRequest where
  alias_pfx : String
  signed_suffix : String
  mailbox_ids : List Nat
  note : Option String
  name : Option String
  deriving DecidableEq

/-- The MIMEMultipart message composed by the transport sender: the From, To
and Subject headers, the optional Cc and Bcc headers, and the plain-text body
part. -/
structure Message where
  hFrom : String
  hTo : String
  hSubject : String
  hCc : Option String
  hBcc : Option String
  bodyText : String
  deriving DecidableEq

/-- The arguments of the single server.sendmail call: envelope sender,
recipient list, and the composed message (whose rendered text is
renderMessage). -/
structure SmtpRequest where
  envelopeFrom : String
  recipients : List String
  msg : Message
  deriving DecidableEq

/-- One external interaction performed by the client, in source order. -/
inductive Event where
  /-- POST /v2/aliases with the optional query field of the JSON body. -/
  | aliasListCall (query : Option String)
  /-- GET /v5/alias/options?hostname=... -/
  | aliasOptionsCall (hostname : String)
  /-- POST /v3/alias/custom/new with the given body. -/
  | aliasCreateCall (req : CreateAliasRequest)
  /-- GET /mailboxes. -/
  | mailboxListCall
  /-- DELETE /aliases/(id). -/
  | deleteCall (aliasId : Nat)
  /-- POST /aliases/(aliasId)/contacts with body contact = the bracketed
  email address. -/
  | contactCall (aliasId : Nat) (emailAddr : String)
  /-- Invocation of the api-client operation create_alias with the given
  alias prefix argument, mailbox id and hostname (the client-level
  alias-creation call, before any HTTP request is made). -/
  | createAliasOp (aliasPfx : String) (mailboxId : Nat) (hostname : String)
  /-- Opening of the smtplib session (SMTP(), starttls, login), which happens
  after the message msg has been composed. -/
  | smtpConnect (msg : Message)
  /-- The server.sendmail call with the given arguments. -/
  | smtpSend (req : SmtpRequest)
  deriving DecidableEq

/-- The behaviour of the external world: the response of every SimpleLogin
endpoint as a function of the request, and the outcome of the SMTP session. -/
structure Env where
  aliasesResp : Option String → ReqOutcome (List Alias)
  optionsResp : String → ReqOutcome (List SuffixEntry)
  createResp : CreateAliasRequest → ReqOutcome Alias
  mailboxesResp : ReqOutcome (List Mailbox)
  deleteResp : Nat → ReqOutcome Unit
  contactResp : Nat → String → ReqOutcome Contact
  smtpConnectOutcome : Option PyExn
  smtpSendOutcome : SmtpRequest → Option PyExn

/-- The module-level configuration values read from the environment by
client.py. -/
structure Config where
  slPrimaryEmail : String
  slPrimaryDomain : String
  /-- ALIAS underscore PHONE underscore NUMBER underscore PREFIX. -/
  aliasPhoneNumberPfx : String
  /-- ALIAS underscore PHONE underscore NUMBER underscore SUFFIX. -/
  aliasPhoneNumberSuffix : String
  bridgeSmtpUsername : String

/-- Python truthiness of an optional string: None and the empty string are
falsy, every other string is truthy. -/
def pyTruthyOpt : Option String → Bool
  | none => false
  | some s => !(s == "")

/-- Keep an optional string only when it is Python-truthy. -/
def truthyOpt : Option String → Option String
  | none => none
  | some s => if s == "" then none else some s

/- ----------------------------------------------------------------
   src/simplelogin/api.py
   ---------------------------------------------------------------- -/

/-- The query key of the JSON body of POST /v2/aliases: present exactly when
the query argument is Python-truthy (api.py, get_aliases: data is empty,
then data gets the query field only if query is truthy). -/
def queryPayload (query : Option String) : Option String :=
  if pyTruthyOpt query then query else none

/-- api.py get_aliases: POST /v2/aliases, raise_for_status, return the
aliases field of the body.  On HTTPError the handler reads
e.response.json() (succeeds, response present), logs, and returns None.
On a RequestException without response, e.response is None and the
handler itself raises AttributeError, which escapes. -/
def get_aliases (env : Env) (query : Option String) :
    Except PyExn (Option (List Alias)) × List Event :=
  match env.aliasesResp (queryPayload query) with
  | .ok aliases => (.ok (some aliases), [.aliasListCall (queryPayload query)])
  | .httpError => (.ok none, [.aliasListCall (queryPayload query)])
  | .netError => (.error .attributeError, [.aliasListCall (queryPayload query)])

/-- api.py get_signed_suffix: GET /v5/alias/options, then return the first
suffix entry whose suffix field equals the at-sign followed by the hostname,
or None when there is none or when the request failed with an HTTPError.
A RequestException without response makes the handler raise AttributeError. -/
def get_signed_suffix (env : Env) (hostname : String) :
    Except PyExn (Option SuffixEntry) × List Event :=
  match env.optionsResp hostname with
  | .ok sxs =>
      (.ok (sxs.find? (fun sx => sx.suffix == "@" ++ hostname)),
       [.aliasOptionsCall hostname])
  | .httpError => (.ok none, [.aliasOptionsCall hostname])
  | .netError => (.error .attributeError, [.aliasOptionsCall hostname])

/-- api.py create_alias: resolve the signed suffix first (returning None if
that returns None, propagating its exception if it raises), then POST
/v3/alias/custom/new.  The source sets note and name in the body twice when
note is truthy; the body is identical either way, so the request always
carries both fields. -/
def create_alias (env : Env) (aliasPfx : String) (mailboxId : Nat)
    (hostname : String) (note : Option String) (aliasName : Option String) :
    Except PyExn (Option Alias) × List Event :=
  let gsx := get_signed_suffix env hostname
  match gsx.1 with
  | .error e => (.error e, .createAliasOp aliasPfx mailboxId hostname :: gsx.2)
  | .ok none => (.ok none, .createAliasOp aliasPfx mailboxId hostname :: gsx.2)
  | .ok (some sx) =>
    let req : CreateAliasRequest :=
      { alias_pfx := aliasPfx, signed_suffix := sx.signed_suffix,
        mailbox_ids := [mailboxId], note := note, name := aliasName }
    match env.createResp req with
    | .ok created =>
        (.ok (some created),
         .createAliasOp aliasPfx mailboxId hostname :: (gsx.2 ++ [.aliasCreateCall req]))
    | .httpError =>
        (.ok none,
         .createAliasOp aliasPfx mailboxId hostname :: (gsx.2 ++ [.aliasCreateCall req]))
    | .netError =>
        (.error .attributeError,
         .createAliasOp aliasPfx mailboxId hostname :: (gsx.2 ++ [.aliasCreateCall req]))

/-- api.py delete_alias: DELETE /aliases/(id); True on 2xx, False on
HTTPError, AttributeError escaping on a RequestException without response. -/
def delete_alias (env : Env) (aliasId : Nat) : Except PyExn Bool × List Event :=
  match env.deleteResp aliasId with
  | .ok _ => (.ok true, [.deleteCall aliasId])
  | .httpError => (.ok false, [.deleteCall aliasId])
  | .netError => (.error .attributeError, [.deleteCall aliasId])

/-- api.py get_all_mailboxes: GET /mailboxes, returning the mailboxes field. -/
def get_all_mailboxes (env : Env) :
    Except PyExn (Option (List Mailbox)) × List Event :=
  match env.mailboxesResp with
  | .ok mbs => (.ok (some mbs), [.mailboxListCall])
  | .httpError => (.ok none, [.mailboxListCall])
  | .netError => (.error .attributeError, [.mailboxListCall])

/-- api.py get_mailbox_by_email: fetch all mailboxes, then linear scan for the
first one whose email field equals the argument; None when the fetch failed
or when there is no match. -/
def get_mailbox_by_email (env : Env) (emailAddr : String) :
    Except PyExn (Option Mailbox) × List Event :=
  let gm := get_all_mailboxes env
  match gm.1 with
  | .error e => (.error e, gm.2)
  | .ok none => (.ok none, gm.2)
  | .ok (some mbs) => (.ok (mbs.find? (fun mb => mb.email == emailAddr)), gm.2)

/-- api.py get_or_create_alias_contact: POST /aliases/(id)/contacts with the
bracketed email address; the server performs the find-or-create.  The 2xx
body is the contact record; HTTPError gives None; a RequestException without
response makes the handler raise AttributeError. -/
def get_or_create_alias_contact (env : Env) (aliasId : Nat) (emailAddr : String) :
    Except PyExn (Option Contact) × List Event :=
  match env.contactResp aliasId emailAddr with
  | .ok c => (.ok (some c), [.contactCall aliasId emailAddr])
  | .httpError => (.ok none, [.contactCall aliasId emailAddr])
  | .netError => (.error .attributeError, [.contactCall aliasId emailAddr])

/- ----------------------------------------------------------------
   src/simplelogin/client.py
   ---------------------------------------------------------------- -/

/-- client.py line 50: re.sub of every non-digit character by the empty
string, scanning the string left to right. -/
def reSubNonDigit : List Char → List Char
  | [] => []
  | c :: cs => if c.isDigit then c :: reSubNonDigit cs else reSubNonDigit cs

/-- The cleaned phone number: all non-digit characters removed. -/
def cleanedPhoneNumber (s : String) : String :=
  String.mk (reSubNonDigit s.data)

/-- The alias prefix built in client.py from the configured prefix, the
cleaned phone number and the configured suffix. -/
def givenAliasPfxOf (cfg : Config) (phone : String) : String :=
  cfg.aliasPhoneNumberPfx ++ cleanedPhoneNumber phone ++ cfg.aliasPhoneNumberSuffix

/-- The exact-match alias query string: the alias prefix, an at-sign and the
primary domain. -/
def aliasQueryOf (cfg : Config) (phone : String) : String :=
  givenAliasPfxOf cfg phone ++ "@" ++ cfg.slPrimaryDomain

/-- The auto-generated alias note containing the current timestamp. -/
def noteOf (noteTime : String) : String :=
  "Created by relaysms email bridge at " ++ noteTime ++ "."

/-- client.py private function get-or-create-phonenumber-alias: query aliases
by the exact lookup key; propagate None on failure; return the first alias if
any matched; otherwise resolve the primary mailbox and create a new alias. -/
def getOrCreatePhonenumberAlias (env : Env) (cfg : Config) (noteTime : String)
    (phone : String) : Except PyExn (Option Alias) × List Event :=
  let ga := get_aliases env (some (aliasQueryOf cfg phone))
  match ga.1 with
  | .error e => (.error e, ga.2)
  | .ok none => (.ok none, ga.2)
  | .ok (some (a :: _)) => (.ok (some a), ga.2)
  | .ok (some []) =>
    let gm := get_mailbox_by_email env cfg.slPrimaryEmail
    match gm.1 with
    | .error e => (.error e, ga.2 ++ gm.2)
    | .ok none => (.ok none, ga.2 ++ gm.2)
    | .ok (some mb) =>
      let ca := create_alias env (givenAliasPfxOf cfg phone) mb.id
          cfg.slPrimaryDomain (some (noteOf noteTime))
          (some (cleanedPhoneNumber phone ++ " Via RelaySMS"))
      (ca.1, ga.2 ++ gm.2 ++ ca.2)

/-- The optional-recipient contact lookup of client.py: call the contact
endpoint only when the optional email is Python-truthy, otherwise None. -/
def optContactLookup (env : Env) (aliasId : Nat) (emailOpt : Option String) :
    Except PyExn (Option Contact) × List Event :=
  match emailOpt with
  | none => (.ok none, [])
  | some s =>
    if s == "" then (.ok none, [])
    else get_or_create_alias_contact env aliasId s

/-- client.py private function handle-aliases: resolve the mandatory to
contact and the optional cc and bcc contacts, then project each resolved
contact to its reverse_alias field (None when the contact is None). -/
def handleAliases (env : Env) (aliasId : Nat) (toEmail : String)
    (ccEmail bccEmail : Option String) :
    Except PyExn (Option String × Option String × Option String) × List Event :=
  let t := get_or_create_alias_contact env aliasId toEmail
  match t.1 with
  | .error e => (.error e, t.2)
  | .ok toC =>
    let c := optContactLookup env aliasId ccEmail
    match c.1 with
    | .error e => (.error e, t.2 ++ c.2)
    | .ok ccC =>
      let b := optContactLookup env aliasId bccEmail
      match b.1 with
      | .error e => (.error e, t.2 ++ c.2 ++ b.2)
      | .ok bccC =>
        (.ok (toC.map Contact.reverse_alias, ccC.map Contact.reverse_alias,
              bccC.map Contact.reverse_alias),
         t.2 ++ c.2 ++ b.2)

/-- The MIMEMultipart message composed by client.py private function
send-email-via-smtp: From, To and Subject always; Cc and Bcc only when the
corresponding reverse alias is Python-truthy. -/
def composeMessage (cfg : Config) (toRA subject body : String)
    (ccRA bccRA : Option String) : Message :=
  { hFrom := cfg.slPrimaryEmail, hTo := toRA, hSubject := subject,
    hCc := truthyOpt ccRA, hBcc := truthyOpt bccRA, bodyText := body }

/-- The rendered text of the composed message (msg.as_string()), as the list
of its header lines followed by a blank line and the body part. -/
def renderMessage (m : Message) : List String :=
  ["From: " ++ m.hFrom, "To: " ++ m.hTo, "Subject: " ++ m.hSubject]
    ++ (match m.hCc with | some c => ["Cc: " ++ c] | none => [])
    ++ (match m.hBcc with | some b => ["Bcc: " ++ b] | none => [])
    ++ ["", m.bodyText]

/-- The addresses placed in the To, Cc and Bcc header fields of a message. -/
def headerAddrs (m : Message) : List String :=
  m.hTo :: (m.hCc.toList ++ m.hBcc.toList)

/-- The server.sendmail arguments built by client.py: envelope sender is the
bridge SMTP username, the recipients list is the to reverse alias followed by
the cc and bcc reverse aliases when truthy, and the message is the composed
MIMEMultipart. -/
def smtpReqOf (cfg : Config) (toRA subject body : String)
    (ccRA bccRA : Option String) : SmtpRequest :=
  { envelopeFrom := cfg.bridgeSmtpUsername,
    recipients := toRA :: ((truthyOpt ccRA).toList ++ (truthyOpt bccRA).toList),
    msg := composeMessage cfg toRA subject body ccRA bccRA }

/-- client.py private function send-email-via-smtp: compose the message, open
the session (SMTP(), starttls, login), build the recipients list (to, then cc
and bcc when truthy), and issue the single server.sendmail call with the
bridge SMTP username as envelope sender.  Session or sendmail failures raise
to the caller. -/
def sendEmailViaSmtp (env : Env) (cfg : Config) (toRA subject body : String)
    (ccRA bccRA : Option String) : Except PyExn Unit × List Event :=
  match env.smtpConnectOutcome with
  | some e => (.error e, [.smtpConnect (composeMessage cfg toRA subject body ccRA bccRA)])
  | none =>
    match env.smtpSendOutcome (smtpReqOf cfg toRA subject body ccRA bccRA) with
    | some e =>
        (.error e,
         [.smtpConnect (composeMessage cfg toRA subject body ccRA bccRA),
          .smtpSend (smtpReqOf cfg toRA subject body ccRA bccRA)])
    | none =>
        (.ok (),
         [.smtpConnect (composeMessage cfg toRA subject body ccRA bccRA),
          .smtpSend (smtpReqOf cfg toRA subject body ccRA bccRA)])

/-- The failure message returned when the phone number alias could not be
obtained. -/
def failAliasMsg : String :=
  "Failed to create phone number alias. Please try again later."

/-- The failure message returned when the mandatory to contact could not be
resolved. -/
def failToContactMsg : String :=
  "Failed to create to_email contact reverse alias. Please try again later."

/-- The generic failure message of the send_email catch-all handler. -/
def genericFailMsg : String :=
  "Failed to send email. Please try again later."

/-- The success message with the completion timestamp. -/
def successMsg (doneTime : String) : String :=
  "Email sent successfully at " ++ doneTime ++ "."

/-- The body of the try block of client.py send_email: the four steps with
their early returns; an exception anywhere is Except.error. -/
def sendAttempt (env : Env) (cfg : Config) (noteTime doneTime : String)
    (phone toEmail subject body : String) (ccEmail bccEmail : Option String) :
    Except PyExn (Bool × String) × List Event :=
  let g := getOrCreatePhonenumberAlias env cfg noteTime phone
  match g.1 with
  | .error e => (.error e, g.2)
  | .ok none => (.ok (false, failAliasMsg), g.2)
  | .ok (some pnAlias) =>
    let h := handleAliases env pnAlias.id toEmail ccEmail bccEmail
    match h.1 with
    | .error e => (.error e, g.2 ++ h.2)
    | .ok (none, _, _) => (.ok (false, failToContactMsg), g.2 ++ h.2)
    | .ok (some toRAv, ccRA, bccRA) =>
      let s := sendEmailViaSmtp env cfg toRAv subject body ccRA bccRA
      match s.1 with
      | .error e => (.error e, g.2 ++ h.2 ++ s.2)
      | .ok _ => (.ok (true, successMsg doneTime), g.2 ++ h.2 ++ s.2)

/-- client.py send_email: run the try block; a normal return passes through,
and any escaping exception is caught by the catch-all handler, logged, and
converted to the generic failure tuple.  The function can never raise. -/
def send_email (env : Env) (cfg : Config) (noteTime doneTime : String)
    (phone toEmail subject body : String) (ccEmail bccEmail : Option String) :
    (Bool × String) × List Event :=
  let r := sendAttempt env cfg noteTime doneTime phone toEmail subject body ccEmail bccEmail
  match r.1 with
  | .ok res => (res, r.2)
  | .error _ => ((false, genericFailMsg), r.2)

/- ----------------------------------------------------------------
   Trace characterizations
   ---------------------------------------------------------------- -/

/-- Whether an event belongs to the SMTP transport step. -/
def isSmtpEvent : Event → Bool
  | .smtpConnect _ => true
  | .smtpSend _ => true
  | _ => false

/-- Whether an event is the GET /mailboxes request. -/
def isMailboxListCall : Event → Bool
  | .mailboxListCall => true
  | _ => false

/-- Whether an event is an invocation of the create_alias operation. -/
def isCreateAliasOp : Event → Bool
  | .createAliasOp _ _ _ => true
  | _ => false

theorem ga_trace (env : Env) (q : Option String) :
    (get_aliases env q).2 = [Event.aliasListCall (queryPayload q)] := by
  unfold get_aliases
  cases env.aliasesResp (queryPayload q) <;> rfl

theorem gsx_trace (env : Env) (hn : String) :
    (get_signed_suffix env hn).2 = [Event.aliasOptionsCall hn] := by
  unfold get_signed_suffix
  cases env.optionsResp hn <;> rfl

theorem gmb_trace (env : Env) (em : String) :
    (get_mailbox_by_email env em).2 = [Event.mailboxListCall] := by
  unfold get_mailbox_by_email get_all_mailboxes
  cases env.mailboxesResp <;> rfl

theorem contact_trace (env : Env) (aliasId : Nat) (em : String) :
    (get_or_create_alias_contact env aliasId em).2 = [Event.contactCall aliasId em] := by
  unfold get_or_create_alias_contact
  cases env.contactResp aliasId em <;> rfl

theorem optContact_events (env : Env) (aliasId : Nat) (o : Option String) :
    ∀ e ∈ (optContactLookup env aliasId o).2, ∃ a b, e = Event.contactCall a b := by
  intro e
  cases o with
  | none => intro he; simp [optContactLookup] at he
  | some s =>
    simp only [optContactLookup]
    by_cases hs : s == ""
    · rw [if_pos hs]; intro he; simp at he
    · rw [if_neg hs, contact_trace]
      intro he; simp at he; exact ⟨aliasId, s, he⟩

theorem create_alias_events (env : Env) (p : String) (m : Nat) (hn : String)
    (note aliasName : Option String) :
    ∀ e ∈ (create_alias env p m hn note aliasName).2,
      e = Event.createAliasOp p m hn ∨ e = Event.aliasOptionsCall hn ∨
        ∃ r, e = Event.aliasCreateCall r := by
  intro e he
  simp only [create_alias] at he
  rw [gsx_trace] at he
  split at he
  all_goals try split at he
  all_goals first
    | (simp at he
       rcases he with h | h
       · exact Or.inl h
       · exact Or.inr (Or.inl h))
    | (simp at he
       rcases he with h | h | h
       · exact Or.inl h
       · exact Or.inr (Or.inl h)
       · exact Or.inr (Or.inr ⟨_, h⟩))

theorem getOrCreate_events (env : Env) (cfg : Config) (noteTime phone : String) :
    ∀ e ∈ (getOrCreatePhonenumberAlias env cfg noteTime phone).2,
      (∃ q, e = Event.aliasListCall q) ∨ e = Event.mailboxListCall ∨
        (∃ p m hn, e = Event.createAliasOp p m hn) ∨
        (∃ hn, e = Event.aliasOptionsCall hn) ∨
        (∃ r, e = Event.aliasCreateCall r) := by
  intro e he
  simp only [getOrCreatePhonenumberAlias] at he
  rw [ga_trace, gmb_trace] at he
  split at he
  all_goals try split at he
  all_goals first
    | (simp at he; exact Or.inl ⟨_, he⟩)
    | (simp at he
       rcases he with h | h
       · exact Or.inl ⟨_, h⟩
       · exact Or.inr (Or.inl h))
    | (rcases List.mem_append.1 he with h | h
       · rcases List.mem_append.1 h with h2 | h2
         · simp at h2; exact Or.inl ⟨_, h2⟩
         · simp at h2; exact Or.inr (Or.inl h2)
       · rcases create_alias_events env _ _ _ _ _ e h with h2 | h2 | h2
         · exact Or.inr (Or.inr (Or.inl ⟨_, _, _, h2⟩))
         · exact Or.inr (Or.inr (Or.inr (Or.inl ⟨_, h2⟩)))
         · exact Or.inr (Or.inr (Or.inr (Or.inr h2))))

theorem handleAliases_events (env : Env) (aliasId : Nat) (toEmail : String)
    (ccEmail bccEmail : Option String) :
    ∀ e ∈ (handleAliases env aliasId toEmail ccEmail bccEmail).2,
      ∃ a b, e = Event.contactCall a b := by
  intro e he
  simp only [handleAliases] at he
  rw [contact_trace] at he
  split at he
  all_goals try split at he
  all_goals try split at he
  all_goals first
    | (simp at he; exact ⟨aliasId, toEmail, he⟩)
    | (rcases List.mem_append.1 he with h | h
       · simp at h; exact ⟨aliasId, toEmail, h⟩
       · exact optContact_events env aliasId ccEmail e h)
    | (rcases List.mem_append.1 he with h | h
       · rcases List.mem_append.1 h with h2 | h2
         · simp at h2; exact ⟨aliasId, toEmail, h2⟩
         · exact optContact_events env aliasId ccEmail e h2
       · exact optContact_events env aliasId bccEmail e h)

theorem noSmtp_getOrCreate (env : Env) (cfg : Config) (noteTime phone : String) :
    ∀ e ∈ (getOrCreatePhonenumberAlias env cfg noteTime phone).2,
      isSmtpEvent e = false := by
  intro e he
  rcases getOrCreate_events env cfg noteTime phone e he with
    ⟨q, h⟩ | h | ⟨p, m, hn, h⟩ | ⟨hn, h⟩ | ⟨r, h⟩ <;> subst h <;> rfl

theorem noSmtp_handleAliases (env : Env) (aliasId : Nat) (toEmail : String)
    (ccEmail bccEmail : Option String) :
    ∀ e ∈ (handleAliases env aliasId toEmail ccEmail bccEmail).2,
      isSmtpEvent e = false := by
  intro e he
  rcases handleAliases_events env aliasId toEmail ccEmail bccEmail e he with ⟨a, b, h⟩
  subst h; rfl

theorem send_email_trace (env : Env) (cfg : Config) (noteTime doneTime : String)
    (phone toEmail subject body : String) (ccEmail bccEmail : Option String) :
    (send_email env cfg noteTime doneTime phone toEmail subject body ccEmail bccEmail).2 =
      (sendAttempt env cfg noteTime doneTime phone toEmail subject body ccEmail bccEmail).2 := by
  simp only [send_email]
  cases (sendAttempt env cfg noteTime doneTime phone toEmail subject body ccEmail bccEmail).1 <;> rfl

/- ----------------------------------------------------------------
   Inversion and evaluation lemmas
   ---------------------------------------------------------------- -/

theorem contact_ok_some (env : Env) (aliasId : Nat) (em : String) (c : Contact)
    (h : (get_or_create_alias_contact env aliasId em).1 = .ok (some c)) :
    env.contactResp aliasId em = .ok c := by
  unfold get_or_create_alias_contact at h
  split at h <;> simp_all

theorem optContact_some (env : Env) (aliasId : Nat) (o : Option String) (c : Contact)
    (h : (optContactLookup env aliasId o).1 = .ok (some c)) :
    ∃ em, o = some em ∧ env.contactResp aliasId em = .ok c := by
  cases o with
  | none => simp [optContactLookup] at h
  | some s =>
    simp only [optContactLookup] at h
    by_cases hs : s == ""
    · rw [if_pos hs] at h; simp at h
    · rw [if_neg hs] at h
      exact ⟨s, rfl, contact_ok_some env aliasId s c h⟩

theorem handleAliases_ok (env : Env) (aliasId : Nat) (toE : String)
    (ccE bccE : Option String) (toRA ccRA bccRA : Option String)
    (h : (handleAliases env aliasId toE ccE bccE).1 = .ok (toRA, ccRA, bccRA)) :
    ∃ toC ccC bccC,
      (get_or_create_alias_contact env aliasId toE).1 = .ok toC ∧
      (optContactLookup env aliasId ccE).1 = .ok ccC ∧
      (optContactLookup env aliasId bccE).1 = .ok bccC ∧
      toRA = toC.map Contact.reverse_alias ∧
      ccRA = ccC.map Contact.reverse_alias ∧
      bccRA = bccC.map Contact.reverse_alias := by
  simp only [handleAliases] at h
  split at h
  · simp at h
  · rename_i toC heqT
    split at h
    · simp at h
    · rename_i ccC heqC
      split at h
      · simp at h
      · rename_i bccC heqB
        simp only [Prod.mk.injEq, Except.ok.injEq] at h
        obtain ⟨h1, h2, h3⟩ := h
        subst h1; subst h2; subst h3
        exact ⟨toC, ccC, bccC, heqT, heqC, heqB, rfl, rfl, rfl⟩

theorem handleAliases_eval (env : Env) (aliasId : Nat) (toE : String)
    (ccE bccE : Option String) (toC ccC bccC : Option Contact)
    (h1 : (get_or_create_alias_contact env aliasId toE).1 = .ok toC)
    (h2 : (optContactLookup env aliasId ccE).1 = .ok ccC)
    (h3 : (optContactLookup env aliasId bccE).1 = .ok bccC) :
    (handleAliases env aliasId toE ccE bccE).1 =
      .ok (toC.map Contact.reverse_alias, ccC.map Contact.reverse_alias,
           bccC.map Contact.reverse_alias) := by
  simp [handleAliases, h1, h2, h3]

theorem smtpSend_mem_viaSmtp (env : Env) (cfg : Config)
    (toRA subject body : String) (ccRA bccRA : Option String) (req : SmtpRequest)
    (h : Event.smtpSend req ∈ (sendEmailViaSmtp env cfg toRA subject body ccRA bccRA).2) :
    env.smtpConnectOutcome = none ∧ req = smtpReqOf cfg toRA subject body ccRA bccRA := by
  simp only [sendEmailViaSmtp] at h
  split at h
  · simp at h
  · rename_i heqConn
    split at h <;> (simp at h; exact ⟨heqConn, h⟩)

theorem viaSmtp_events (env : Env) (cfg : Config)
    (toRA subject body : String) (ccRA bccRA : Option String) :
    ∀ e ∈ (sendEmailViaSmtp env cfg toRA subject body ccRA bccRA).2,
      e = Event.smtpConnect (composeMessage cfg toRA subject body ccRA bccRA) ∨
        e = Event.smtpSend (smtpReqOf cfg toRA subject body ccRA bccRA) := by
  intro e he
  simp only [sendEmailViaSmtp] at he
  split at he
  · simp at he; exact Or.inl he
  · split at he <;> (simp at he; tauto)

theorem smtpSend_mem_sendAttempt (env : Env) (cfg : Config)
    (noteTime doneTime phone toE subject body : String)
    (ccE bccE : Option String) (req : SmtpRequest)
    (hmem : Event.smtpSend req ∈
      (sendAttempt env cfg noteTime doneTime phone toE subject body ccE bccE).2) :
    ∃ pnA toRAv ccRA bccRA,
      (getOrCreatePhonenumberAlias env cfg noteTime phone).1 = .ok (some pnA) ∧
      (handleAliases env pnA.id toE ccE bccE).1 = .ok (some toRAv, ccRA, bccRA) ∧
      env.smtpConnectOutcome = none ∧
      req = smtpReqOf cfg toRAv subject body ccRA bccRA := by
  have notSmtpSend : isSmtpEvent (Event.smtpSend req) = true := rfl
  simp only [sendAttempt] at hmem
  split at hmem
  · exact absurd (noSmtp_getOrCreate env cfg noteTime phone _ hmem) (by simp [notSmtpSend])
  · exact absurd (noSmtp_getOrCreate env cfg noteTime phone _ hmem) (by simp [notSmtpSend])
  · rename_i pnA heqG
    split at hmem
    · rcases List.mem_append.1 hmem with h | h
      · exact absurd (noSmtp_getOrCreate env cfg noteTime phone _ h) (by simp [notSmtpSend])
      · exact absurd (noSmtp_handleAliases env pnA.id toE ccE bccE _ h) (by simp [notSmtpSend])
    · rcases List.mem_append.1 hmem with h | h
      · exact absurd (noSmtp_getOrCreate env cfg noteTime phone _ h) (by simp [notSmtpSend])
      · exact absurd (noSmtp_handleAliases env pnA.id toE ccE bccE _ h) (by simp [notSmtpSend])
    · rename_i toRAv ccRA bccRA heqH
      split at hmem <;>
      · rcases List.mem_append.1 hmem with h | h
        · rcases List.mem_append.1 h with h2 | h2
          · exact absurd (noSmtp_getOrCreate env cfg noteTime phone _ h2) (by simp [notSmtpSend])
          · exact absurd (noSmtp_handleAliases env pnA.id toE ccE bccE _ h2) (by simp [notSmtpSend])
        · obtain ⟨hconn, hreq⟩ :=
            smtpSend_mem_viaSmtp env cfg toRAv subject body ccRA bccRA req h
          exact ⟨pnA, toRAv, ccRA, bccRA, heqG, heqH, hconn, hreq⟩

theorem sendAttempt_smtp_reached (env : Env) (cfg : Config)
    (noteTime doneTime phone toE subject body : String)
    (ccE bccE : Option String) (pnA : Alias) (toRAv : String)
    (ccRA bccRA : Option String)
    (hg : (getOrCreatePhonenumberAlias env cfg noteTime phone).1 = .ok (some pnA))
    (hh : (handleAliases env pnA.id toE ccE bccE).1 = .ok (some toRAv, ccRA, bccRA))
    (hc : env.smtpConnectOutcome = none) :
    Event.smtpSend (smtpReqOf cfg toRAv subject body ccRA bccRA) ∈
      (sendAttempt env cfg noteTime doneTime phone toE subject body ccE bccE).2 := by
  simp only [sendAttempt, hg, hh, sendEmailViaSmtp, hc]
  cases env.smtpSendOutcome (smtpReqOf cfg toRAv subject body ccRA bccRA) <;> simp

/- ----------------------------------------------------------------
   Concrete fixtures used by witnesses and counterexamples
   ---------------------------------------------------------------- -/

/-- A sample alias record. -/
def aliasA : Alias := { id := 7, email := "237123456789@example.com" }

/-- A sample mailbox record. -/
def mailboxA : Mailbox := { id := 3, email := "admin@example.com" }

/-- A sample resolved contact for the to recipient. -/
def contactTo : Contact :=
  { contact := "to@x.com", reverse_alias := "ra.to@sl.io", existed := false }

/-- A sample resolved contact for the cc recipient. -/
def contactCc : Contact :=
  { contact := "cc@x.com", reverse_alias := "ra.cc@sl.io", existed := true }

/-- A sample resolved contact for the bcc recipient. -/
def contactBcc : Contact :=
  { contact := "bcc@x.com", reverse_alias := "ra.bcc@sl.io", existed := false }

/-- A sample matching suffix entry for example.com. -/
def sfxA : SuffixEntry := { suffix := "@example.com", signed_suffix := "SIG" }

/-- A sample configuration. -/
def cfg0 : Config :=
  { slPrimaryEmail := "admin@example.com", slPrimaryDomain := "example.com",
    aliasPhoneNumberPfx := "", aliasPhoneNumberSuffix := "",
    bridgeSmtpUsername := "bridge@relay.sms" }

/-- An environment where every HTTP request fails with a RequestException
carrying no response (connection error or timeout). -/
def envNet : Env :=
  { aliasesResp := fun _ => .netError, optionsResp := fun _ => .netError,
    createResp := fun _ => .netError, mailboxesResp := .netError,
    deleteResp := fun _ => .netError, contactResp := fun _ _ => .netError,
    smtpConnectOutcome := none, smtpSendOutcome := fun _ => none }

/-- Like envNet, except that the suffix lookup succeeds with a matching
entry, so that create_alias reaches its own POST, which then fails without
a response. -/
def envNetCreate : Env := { envNet with optionsResp := fun _ => .ok [sfxA] }

/-- A fully successful environment: the alias exists, all three contacts
resolve, and the SMTP session succeeds. -/
def envHappy : Env :=
  { aliasesResp := fun _ => .ok [aliasA]
  , optionsResp := fun _ => .ok []
  , createResp := fun _ => .netError
  , mailboxesResp := .ok [mailboxA]
  , deleteResp := fun _ => .ok ()
  , contactResp := fun _ em =>
      if em == "to@x.com" then .ok contactTo
      else if em == "cc@x.com" then .ok contactCc
      else if em == "bcc@x.com" then .ok contactBcc
      else .httpError
  , smtpConnectOutcome := none
  , smtpSendOutcome := fun _ => none }

/- ----------------------------------------------------------------
   Claim theorems
   ---------------------------------------------------------------- -/

theorem reSubNonDigit_eq_filter (l : List Char) :
    reSubNonDigit l = l.filter (fun c => c.isDigit) := by
  induction l with
  | nil => rfl
  | cons c cs ih => simp only [reSubNonDigit, List.filter_cons]; split <;> simp_all

/-- C8: for every input string, phone-number normalization deterministically
removes exactly the non-digit characters and preserves the digits in their
original order (the result is the digit-only subsequence of the input); in
particular "+237 123-456789" normalizes to "237123456789". -/
theorem c8_phone_normalization (s : String) :
    (cleanedPhoneNumber s).data = s.data.filter (fun c => c.isDigit) ∧
    List.Sublist (cleanedPhoneNumber s).data s.data ∧
    cleanedPhoneNumber "+237 123-456789" = "237123456789" := by
  refine ⟨?_, ?_, by decide⟩
  · simpa [cleanedPhoneNumber] using reSubNonDigit_eq_filter s.data
  · have h : (cleanedPhoneNumber s).data = s.data.filter (fun c => c.isDigit) := by
      simpa [cleanedPhoneNumber] using reSubNonDigit_eq_filter s.data
    rw [h]
    exact List.filter_sublist s.data

/-- C2: the claim states that any exception raised by the underlying network
call is caught inside each API-client operation and converted to a None or
False sentinel, so that no exception escapes the layer.  The code violates
this: on a RequestException carrying no response (connection error, timeout),
every except-handler evaluates e.response.json() with e.response = None and
itself raises an AttributeError that escapes the operation.  This theorem
evaluates all six operations at such a failing input. -/
theorem c2_exception_escapes_api_layer :
    (get_aliases envNet (some "q")).1 = .error .attributeError ∧
    (get_signed_suffix envNet "example.com").1 = .error .attributeError ∧
    (create_alias envNetCreate "p" 3 "example.com" none none).1 = .error .attributeError ∧
    (delete_alias envNet 5).1 = .error .attributeError ∧
    (get_all_mailboxes envNet).1 = .error .attributeError ∧
    (get_or_create_alias_contact envNet 7 "to@x.com").1 = .error .attributeError :=
  ⟨rfl, rfl, rfl, rfl, rfl, rfl⟩

/-- C5: for every phone number for which the alias query returns a non-empty
list, get-or-create-alias returns the first alias of that list and issues no
mailbox lookup and no alias-creation call. -/
theorem c5_existing_alias_short_circuits (env : Env) (cfg : Config)
    (noteTime phone : String) (a : Alias) (rest : List Alias)
    (h : env.aliasesResp (queryPayload (some (aliasQueryOf cfg phone))) = .ok (a :: rest)) :
    (getOrCreatePhonenumberAlias env cfg noteTime phone).1 = .ok (some a) ∧
    Event.mailboxListCall ∉ (getOrCreatePhonenumberAlias env cfg noteTime phone).2 ∧
    (∀ p m hn, Event.createAliasOp p m hn ∉
      (getOrCreatePhonenumberAlias env cfg noteTime phone).2) ∧
    (∀ r, Event.aliasCreateCall r ∉
      (getOrCreatePhonenumberAlias env cfg noteTime phone).2) := by
  have hga : (get_aliases env (some (aliasQueryOf cfg phone))).1 = .ok (some (a :: rest)) := by
    simp [get_aliases, h]
  have hgat := ga_trace env (some (aliasQueryOf cfg phone))
  refine ⟨?_, ?_, ?_, ?_⟩ <;> simp [getOrCreatePhonenumberAlias, hga, hgat]

/-- An environment where the alias query finds an existing alias and every
other request fails without a response. -/
def envC5 : Env := { envNet with aliasesResp := fun _ => .ok [aliasA] }

/-- Witness for C5 at a concrete input. -/
theorem c5_witness :
    (getOrCreatePhonenumberAlias envC5 cfg0 "t" "+237").1 = .ok (some aliasA) ∧
    Event.mailboxListCall ∉ (getOrCreatePhonenumberAlias envC5 cfg0 "t" "+237").2 ∧
    (∀ p m hn, Event.createAliasOp p m hn ∉
      (getOrCreatePhonenumberAlias envC5 cfg0 "t" "+237").2) ∧
    (∀ r, Event.aliasCreateCall r ∉
      (getOrCreatePhonenumberAlias envC5 cfg0 "t" "+237").2) :=
  c5_existing_alias_short_circuits envC5 cfg0 "t" "+237" aliasA [] rfl

/-- C4: every exception raised during steps 1 to 4 (alias resolution, contact
resolution, compose, SMTP delivery) is caught at the send_email boundary and
converted to the generic failure tuple; nothing is re-raised (send_email
returns a plain pair by construction). -/
theorem c4_catch_all (env : Env) (cfg : Config)
    (noteTime doneTime phone toE subject body : String)
    (ccE bccE : Option String) (e : PyExn)
    (h : (sendAttempt env cfg noteTime doneTime phone toE subject body ccE bccE).1 =
      .error e) :
    send_email env cfg noteTime doneTime phone toE subject body ccE bccE =
      ((false, genericFailMsg),
       (sendAttempt env cfg noteTime doneTime phone toE subject body ccE bccE).2) := by
  simp [send_email, h]

/-- An environment where alias and contact resolution succeed but the
server.sendmail call raises an SMTP exception. -/
def envC4smtp : Env := { envHappy with smtpSendOutcome := fun _ => some .smtpException }

/-- Witness for C4: a simulated SMTP exception after successful alias and
contact resolution yields exactly the generic failure tuple. -/
theorem c4_witness :
    send_email envC4smtp cfg0 "t1" "t2" "+237" "to@x.com" "s" "b" none none =
      ((false, genericFailMsg),
       (sendAttempt envC4smtp cfg0 "t1" "t2" "+237" "to@x.com" "s" "b" none none).2) :=
  c4_catch_all envC4smtp cfg0 "t1" "t2" "+237" "to@x.com" "s" "b" none none
    .smtpException rfl

theorem create_alias_trace (env : Env) (p : String) (m : Nat) (hn : String)
    (note aliasName : Option String) :
    (create_alias env p m hn note aliasName).2 =
        [Event.createAliasOp p m hn, Event.aliasOptionsCall hn] ∨
      ∃ sx, (get_signed_suffix env hn).1 = .ok (some sx) ∧
        (create_alias env p m hn note aliasName).2 =
          [Event.createAliasOp p m hn, Event.aliasOptionsCall hn,
           Event.aliasCreateCall
             { alias_pfx := p, signed_suffix := sx.signed_suffix,
               mailbox_ids := [m], note := note, name := aliasName }] := by
  simp only [create_alias]
  rw [gsx_trace]
  split
  · exact Or.inl rfl
  · exact Or.inl rfl
  · rename_i sx heq
    split <;> exact Or.inr ⟨sx, heq, rfl⟩

theorem create_alias_countP (env : Env) (p : String) (m : Nat) (hn : String)
    (note aliasName : Option String) :
    ((create_alias env p m hn note aliasName).2.countP isMailboxListCall = 0) ∧
    ((create_alias env p m hn note aliasName).2.countP isCreateAliasOp = 1) ∧
    (∀ p2 m2 hn2, Event.createAliasOp p2 m2 hn2 ∈ (create_alias env p m hn note aliasName).2 →
      p2 = p ∧ m2 = m ∧ hn2 = hn) := by
  rcases create_alias_trace env p m hn note aliasName with htr | ⟨sx, _, htr⟩ <;>
    · rw [htr]
      refine ⟨by simp [List.countP_cons, isMailboxListCall],
              by simp [List.countP_cons, isCreateAliasOp], ?_⟩
      intro p2 m2 hn2 hmem
      simp at hmem
      exact ⟨hmem.1, hmem.2.1, hmem.2.2⟩

/-- C6 counterexample: the claim states that whenever the alias query returns
an empty list, exactly one mailbox lookup and exactly one alias-creation call
are issued.  It is false at an environment where the mailbox-list request
fails: the mailbox lookup is issued but no alias-creation call is ever made. -/
theorem c6_counterexample :
    ¬ (∀ env cfg noteTime phone,
        env.aliasesResp (queryPayload (some (aliasQueryOf cfg phone))) =
          ReqOutcome.ok [] →
        ((getOrCreatePhonenumberAlias env cfg noteTime phone).2.countP
            isMailboxListCall = 1 ∧
         (getOrCreatePhonenumberAlias env cfg noteTime phone).2.countP
            isCreateAliasOp = 1)) := by
  intro hAll
  have h2 := (hAll
    { envNet with aliasesResp := fun _ => .ok [], mailboxesResp := .httpError }
    cfg0 "t" "+237" rfl).2
  revert h2
  decide

/-- C6 (amended): for every phone number for which the alias query returns an
empty list, get-or-create-alias issues exactly one mailbox lookup; if the
primary-mailbox lookup succeeds, it issues exactly one alias-creation call,
whose alias prefix exactly equals the configured prefix, followed by the
digit-only normalized phone number, followed by the configured suffix (and
whose mailbox id and hostname are the resolved mailbox id and the primary
domain); if the mailbox lookup fails, no alias-creation call is issued. -/
theorem c6_amended_create_path (env : Env) (cfg : Config) (noteTime phone : String)
    (h : env.aliasesResp (queryPayload (some (aliasQueryOf cfg phone))) = .ok []) :
    ((getOrCreatePhonenumberAlias env cfg noteTime phone).2.countP isMailboxListCall = 1) ∧
    (∀ mb, (get_mailbox_by_email env cfg.slPrimaryEmail).1 = .ok (some mb) →
      ((getOrCreatePhonenumberAlias env cfg noteTime phone).2.countP isCreateAliasOp = 1 ∧
       ∀ p m hn, Event.createAliasOp p m hn ∈
           (getOrCreatePhonenumberAlias env cfg noteTime phone).2 →
         p = cfg.aliasPhoneNumberPfx ++ cleanedPhoneNumber phone ++
               cfg.aliasPhoneNumberSuffix ∧
         m = mb.id ∧ hn = cfg.slPrimaryDomain)) ∧
    ((∀ mb, (get_mailbox_by_email env cfg.slPrimaryEmail).1 ≠ .ok (some mb)) →
      (getOrCreatePhonenumberAlias env cfg noteTime phone).2.countP isCreateAliasOp = 0) := by
  have hga : (get_aliases env (some (aliasQueryOf cfg phone))).1 = .ok (some []) := by
    simp [get_aliases, h]
  cases hm : (get_mailbox_by_email env cfg.slPrimaryEmail).1 with
  | error e2 =>
    have htr : (getOrCreatePhonenumberAlias env cfg noteTime phone).2 =
        [Event.aliasListCall (queryPayload (some (aliasQueryOf cfg phone))),
         Event.mailboxListCall] := by
      simp [getOrCreatePhonenumberAlias, hga, hm, ga_trace, gmb_trace]
    rw [htr]
    refine ⟨by simp [List.countP_cons, isMailboxListCall], ?_, ?_⟩
    · intro mb hmb; exact absurd hmb (by simp)
    · intro _; simp [List.countP_cons, isCreateAliasOp]
  | ok om =>
    cases om with
    | none =>
      have htr : (getOrCreatePhonenumberAlias env cfg noteTime phone).2 =
          [Event.aliasListCall (queryPayload (some (aliasQueryOf cfg phone))),
           Event.mailboxListCall] := by
        simp [getOrCreatePhonenumberAlias, hga, hm, ga_trace, gmb_trace]
      rw [htr]
      refine ⟨by simp [List.countP_cons, isMailboxListCall], ?_, ?_⟩
      · intro mb hmb; exact absurd hmb (by simp)
      · intro _; simp [List.countP_cons, isCreateAliasOp]
    | some mb =>
      have htr : (getOrCreatePhonenumberAlias env cfg noteTime phone).2 =
          [Event.aliasListCall (queryPayload (some (aliasQueryOf cfg phone))),
           Event.mailboxListCall] ++
          (create_alias env (givenAliasPfxOf cfg phone) mb.id cfg.slPrimaryDomain
            (some (noteOf noteTime))
            (some (cleanedPhoneNumber phone ++ " Via RelaySMS"))).2 := by
        simp [getOrCreatePhonenumberAlias, hga, hm, ga_trace, gmb_trace]
      obtain ⟨hc0, hc1, hcargs⟩ :=
        create_alias_countP env (givenAliasPfxOf cfg phone) mb.id cfg.slPrimaryDomain
          (some (noteOf noteTime)) (some (cleanedPhoneNumber phone ++ " Via RelaySMS"))
      rw [htr]
      refine ⟨?_, ?_, ?_⟩
      · rw [List.countP_append, hc0]
        simp [List.countP_cons, isMailboxListCall]
      · intro mb2 hmb2
        have hmbeq : mb2 = mb := by
          simp at hmb2
          exact hmb2.symm
        subst hmbeq
        constructor
        · rw [List.countP_append, hc1]
          simp [List.countP_cons, isCreateAliasOp]
        · intro p m hn hmem
          rcases List.mem_append.1 hmem with h2 | h2
          · simp at h2
          · obtain ⟨e1, e2, e3⟩ := hcargs p m hn h2
            exact ⟨by rw [e1, givenAliasPfxOf], e2, e3⟩
      · intro hno
        exact absurd rfl (hno mb)

/-- An environment for the C6 witness: no alias exists, the primary mailbox
is found, the suffix matches and the creation succeeds. -/
def envC6ok : Env := { envNet with
  aliasesResp := fun _ => .ok [],
  mailboxesResp := .ok [mailboxA],
  optionsResp := fun _ => .ok [sfxA],
  createResp := fun _ => .ok aliasA }

/-- Witness for C6 (amended) at a concrete input. -/
theorem c6_witness :
    ((getOrCreatePhonenumberAlias envC6ok cfg0 "t" "+237 123-456789").2.countP
        isMailboxListCall = 1) ∧
    (∀ mb, (get_mailbox_by_email envC6ok cfg0.slPrimaryEmail).1 = .ok (some mb) →
      ((getOrCreatePhonenumberAlias envC6ok cfg0 "t" "+237 123-456789").2.countP
          isCreateAliasOp = 1 ∧
       ∀ p m hn, Event.createAliasOp p m hn ∈
           (getOrCreatePhonenumberAlias envC6ok cfg0 "t" "+237 123-456789").2 →
         p = cfg0.aliasPhoneNumberPfx ++ cleanedPhoneNumber "+237 123-456789" ++
               cfg0.aliasPhoneNumberSuffix ∧
         m = mb.id ∧ hn = cfg0.slPrimaryDomain)) ∧
    ((∀ mb, (get_mailbox_by_email envC6ok cfg0.slPrimaryEmail).1 ≠ .ok (some mb)) →
      (getOrCreatePhonenumberAlias envC6ok cfg0 "t" "+237 123-456789").2.countP
        isCreateAliasOp = 0) :=
  c6_amended_create_path envC6ok cfg0 "t" "+237 123-456789" rfl

theorem signed_suffix_matches (env : Env) (hn : String) (sx : SuffixEntry)
    (h : (get_signed_suffix env hn).1 = .ok (some sx)) : sx.suffix = "@" ++ hn := by
  unfold get_signed_suffix at h
  split at h
  · rename_i sxs heq
    simp only at h
    injection h with h2
    have hp := List.find?_some h2
    simpa using hp
  · simp at h
  · simp at h

/-- C9: create_alias returns the failure sentinel without issuing any creation
POST whenever the suffix lookup returns the failure sentinel; the lookup
returns the sentinel both when the options request fails with an HTTP error
and when no suffix entry matches the requested domain exactly; and any
creation POST that is issued carries the signed suffix of an entry that
matched the domain exactly, together with the requested alias prefix and
mailbox id. -/
theorem c9_create_alias_suffix_guard (env : Env) (p : String) (m : Nat)
    (hn : String) (note aliasName : Option String) :
    ((get_signed_suffix env hn).1 = .ok none →
      (create_alias env p m hn note aliasName).1 = .ok none ∧
      ∀ r, Event.aliasCreateCall r ∉ (create_alias env p m hn note aliasName).2) ∧
    (env.optionsResp hn = .httpError → (get_signed_suffix env hn).1 = .ok none) ∧
    (∀ sxs, env.optionsResp hn = .ok sxs → (∀ sx ∈ sxs, sx.suffix ≠ "@" ++ hn) →
      (get_signed_suffix env hn).1 = .ok none) ∧
    (∀ r, Event.aliasCreateCall r ∈ (create_alias env p m hn note aliasName).2 →
      ∃ sx, (get_signed_suffix env hn).1 = .ok (some sx) ∧ sx.suffix = "@" ++ hn ∧
        r.signed_suffix = sx.signed_suffix ∧ r.alias_pfx = p ∧
        r.mailbox_ids = [m]) := by
  refine ⟨?_, ?_, ?_, ?_⟩
  · intro hnone
    constructor
    · simp [create_alias, hnone]
    · intro r
      simp [create_alias, hnone, gsx_trace]
  · intro hresp
    simp [get_signed_suffix, hresp]
  · intro sxs hresp hnomatch
    simp only [get_signed_suffix, hresp, Except.ok.injEq]
    rw [List.find?_eq_none]
    intro sx hsx
    simpa using hnomatch sx hsx
  · intro r hr
    rcases create_alias_trace env p m hn note aliasName with htr | ⟨sx, hsx, htr⟩
    · rw [htr] at hr
      simp at hr
    · rw [htr] at hr
      simp at hr
      subst hr
      exact ⟨sx, hsx, signed_suffix_matches env hn sx hsx, rfl, rfl, rfl⟩

/-- An environment whose suffix list contains no entry for example.com. -/
def envC9 : Env :=
  { envNet with
    optionsResp := fun _ => .ok [{ suffix := "@other.com", signed_suffix := "S2" }] }

/-- Witness for C9: at a concrete environment whose suffix list has no entry
for the requested domain, create_alias returns the sentinel and issues no
creation POST. -/
theorem c9_witness :
    (create_alias envC9 "p" 3 "example.com" none none).1 = .ok none ∧
    ∀ r, Event.aliasCreateCall r ∉ (create_alias envC9 "p" 3 "example.com" none none).2 :=
  (c9_create_alias_suffix_guard envC9 "p" 3 "example.com" none none).1 rfl

theorem truthyOpt_eq_some (o : Option String) (a : String)
    (h : truthyOpt o = some a) : o = some a := by
  cases o with
  | none => simp [truthyOpt] at h
  | some s =>
    simp only [truthyOpt] at h
    split at h
    · simp at h
    · exact h

/-- C1: for every send request, every address placed in the To, Cc or Bcc
header of the message handed to the transport is the reverse_alias field of a
contact returned by the alias API for one of the supplied recipient
addresses; consequently, whenever the contacts returned by the API never
echo a supplied recipient address as a reverse alias, none of the real
to/cc/bcc input addresses appears in those headers. -/
theorem c1_headers_are_reverse_aliases (env : Env) (cfg : Config)
    (noteTime doneTime phone toE subject body : String) (ccE bccE : Option String)
    (req : SmtpRequest)
    (hmem : Event.smtpSend req ∈
      (send_email env cfg noteTime doneTime phone toE subject body ccE bccE).2) :
    (∀ a ∈ headerAddrs req.msg, ∃ aliasId em c,
        env.contactResp aliasId em = .ok c ∧ a = c.reverse_alias ∧
        em ∈ toE :: (ccE.toList ++ bccE.toList)) ∧
    ((∀ aliasId em c, env.contactResp aliasId em = .ok c →
        c.reverse_alias ∉ toE :: (ccE.toList ++ bccE.toList)) →
      ∀ a ∈ headerAddrs req.msg, a ∉ toE :: (ccE.toList ++ bccE.toList)) := by
  rw [send_email_trace] at hmem
  obtain ⟨pnA, toRAv, ccRA, bccRA, hg, hh, hconn, hreq⟩ :=
    smtpSend_mem_sendAttempt env cfg noteTime doneTime phone toE subject body ccE bccE
      req hmem
  obtain ⟨toC, ccC, bccC, h1, h2, h3, hT, hC, hB⟩ :=
    handleAliases_ok env pnA.id toE ccE bccE (some toRAv) ccRA bccRA hh
  have main : ∀ a ∈ headerAddrs req.msg, ∃ aliasId em c,
      env.contactResp aliasId em = .ok c ∧ a = c.reverse_alias ∧
      em ∈ toE :: (ccE.toList ++ bccE.toList) := by
    intro a ha
    subst hreq
    simp only [smtpReqOf, composeMessage, headerAddrs] at ha
    rcases List.mem_cons.1 ha with rfl | ha2
    · cases toC with
      | none => simp at hT
      | some c =>
        have hT2 : a = c.reverse_alias := by simpa using hT
        exact ⟨pnA.id, toE, c, contact_ok_some env pnA.id toE c h1, hT2,
          List.mem_cons_self _ _⟩
    · rcases List.mem_append.1 ha2 with hcc | hbb
      · rw [Option.mem_toList, Option.mem_def] at hcc
        have hcc2 : ccRA = some a := truthyOpt_eq_some ccRA a hcc
        rw [hcc2] at hC
        cases ccC with
        | none => simp at hC
        | some c =>
          have hC2 : a = c.reverse_alias := by simpa using hC
          obtain ⟨em, hem, hcr⟩ := optContact_some env pnA.id ccE c h2
          refine ⟨pnA.id, em, c, hcr, hC2, ?_⟩
          apply List.mem_cons_of_mem
          apply List.mem_append_left
          simp [hem]
      · rw [Option.mem_toList, Option.mem_def] at hbb
        have hbb2 : bccRA = some a := truthyOpt_eq_some bccRA a hbb
        rw [hbb2] at hB
        cases bccC with
        | none => simp at hB
        | some c =>
          have hB2 : a = c.reverse_alias := by simpa using hB
          obtain ⟨em, hem, hcr⟩ := optContact_some env pnA.id bccE c h3
          refine ⟨pnA.id, em, c, hcr, hB2, ?_⟩
          apply List.mem_cons_of_mem
          apply List.mem_append_right
          simp [hem]
  refine ⟨main, ?_⟩
  intro hne a ha hain
  obtain ⟨aid, em, c, hcr, haeq, hem⟩ := main a ha
  subst haeq
  exact hne aid em c hcr hain

/-- The sendmail request produced on the fully successful path of envHappy
with all three recipients supplied. -/
def reqHappy : SmtpRequest :=
  smtpReqOf cfg0 "ra.to@sl.io" "s" "b" (some "ra.cc@sl.io") (some "ra.bcc@sl.io")

/-- Witness for C1 at a concrete input. -/
theorem c1_witness :
    (∀ a ∈ headerAddrs reqHappy.msg, ∃ aliasId em c,
        envHappy.contactResp aliasId em = .ok c ∧ a = c.reverse_alias ∧
        em ∈ "to@x.com" :: ((some "cc@x.com").toList ++ (some "bcc@x.com").toList)) ∧
    ((∀ aliasId em c, envHappy.contactResp aliasId em = .ok c →
        c.reverse_alias ∉
          "to@x.com" :: ((some "cc@x.com").toList ++ (some "bcc@x.com").toList)) →
      ∀ a ∈ headerAddrs reqHappy.msg,
        a ∉ "to@x.com" :: ((some "cc@x.com").toList ++ (some "bcc@x.com").toList)) :=
  c1_headers_are_reverse_aliases envHappy cfg0 "t1" "t2" "+237" "to@x.com" "s" "b"
    (some "cc@x.com") (some "bcc@x.com") reqHappy (by decide)

/-- C10: for every send request on which a bcc reverse alias is resolved and
the delivery call is reached, the single sendmail call carries a message
whose Bcc header names that reverse alias, whose rendered text contains the
corresponding Bcc line, and whose one recipient list contains the bcc and to
reverse aliases alike -- every recipient receives the same message text, in
which the Bcc recipient is visible. -/
theorem c10_bcc_header_delivered_to_all (env : Env) (cfg : Config)
    (noteTime doneTime phone toE subject body : String) (ccE : Option String)
    (bEm : String) (pnA : Alias) (toC bccC : Contact) (ccC : Option Contact)
    (hg : (getOrCreatePhonenumberAlias env cfg noteTime phone).1 = .ok (some pnA))
    (hTo : (get_or_create_alias_contact env pnA.id toE).1 = .ok (some toC))
    (hCc : (optContactLookup env pnA.id ccE).1 = .ok ccC)
    (hbne : bEm ≠ "")
    (hB : env.contactResp pnA.id bEm = .ok bccC)
    (hBne : bccC.reverse_alias ≠ "")
    (hconn : env.smtpConnectOutcome = none) :
    ∃ req, Event.smtpSend req ∈
        (send_email env cfg noteTime doneTime phone toE subject body ccE (some bEm)).2 ∧
      req.msg.hBcc = some bccC.reverse_alias ∧
      ("Bcc: " ++ bccC.reverse_alias) ∈ renderMessage req.msg ∧
      bccC.reverse_alias ∈ req.recipients ∧
      toC.reverse_alias ∈ req.recipients ∧
      req.recipients = headerAddrs req.msg ∧
      (∀ req2, Event.smtpSend req2 ∈
          (send_email env cfg noteTime doneTime phone toE subject body ccE (some bEm)).2 →
        req2 = req) := by
  have hB3 : (optContactLookup env pnA.id (some bEm)).1 = .ok (some bccC) := by
    simp [optContactLookup, get_or_create_alias_contact, hbne, hB]
  have hh : (handleAliases env pnA.id toE ccE (some bEm)).1 =
      .ok (some toC.reverse_alias, ccC.map Contact.reverse_alias,
           some bccC.reverse_alias) := by
    simpa using handleAliases_eval env pnA.id toE ccE (some bEm) (some toC) ccC
      (some bccC) hTo hCc hB3
  have hsend := sendAttempt_smtp_reached env cfg noteTime doneTime phone toE subject
    body ccE (some bEm) pnA toC.reverse_alias (ccC.map Contact.reverse_alias)
    (some bccC.reverse_alias) hg hh hconn
  refine ⟨smtpReqOf cfg toC.reverse_alias subject body
      (ccC.map Contact.reverse_alias) (some bccC.reverse_alias),
    ?_, ?_, ?_, ?_, ?_, ?_, ?_⟩
  · rw [send_email_trace]; exact hsend
  · simp [smtpReqOf, composeMessage, truthyOpt, hBne]
  · simp [smtpReqOf, composeMessage, renderMessage, truthyOpt, hBne]
  · simp [smtpReqOf, truthyOpt, hBne]
  · simp [smtpReqOf]
  · simp [smtpReqOf, composeMessage, headerAddrs]
  · intro req2 hmem2
    rw [send_email_trace] at hmem2
    obtain ⟨pnA2, toRAv2, ccRA2, bccRA2, hg2, hh2, _, hreq2⟩ :=
      smtpSend_mem_sendAttempt env cfg noteTime doneTime phone toE subject body ccE
        (some bEm) req2 hmem2
    rw [hg] at hg2
    injection hg2 with hg3
    injection hg3 with hg4
    subst hg4
    rw [hh] at hh2
    injection hh2 with hh3
    injection hh3 with hhto hhrest
    injection hhrest with hhcc hhbcc
    injection hhto with hhto2
    rw [hreq2, ← hhto2, ← hhcc, ← hhbcc]

/-- Witness for C10 at a concrete input. -/
theorem c10_witness :
    ∃ req, Event.smtpSend req ∈
        (send_email envHappy cfg0 "t1" "t2" "+237" "to@x.com" "s" "b"
          (some "cc@x.com") (some "bcc@x.com")).2 ∧
      req.msg.hBcc = some contactBcc.reverse_alias ∧
      ("Bcc: " ++ contactBcc.reverse_alias) ∈ renderMessage req.msg ∧
      contactBcc.reverse_alias ∈ req.recipients ∧
      contactTo.reverse_alias ∈ req.recipients ∧
      req.recipients = headerAddrs req.msg ∧
      (∀ req2, Event.smtpSend req2 ∈
          (send_email envHappy cfg0 "t1" "t2" "+237" "to@x.com" "s" "b"
            (some "cc@x.com") (some "bcc@x.com")).2 →
        req2 = req) :=
  c10_bcc_header_delivered_to_all envHappy cfg0 "t1" "t2" "+237" "to@x.com" "s" "b"
    (some "cc@x.com") "bcc@x.com" aliasA contactTo contactBcc (some contactCc)
    rfl rfl rfl (by decide) rfl (by decide) rfl

/-- An environment reproducing the C3 divergence: the alias exists, the
to-contact lookup fails with an HTTP error (the sentinel case), and the
cc-contact request fails without a response, so its handler raises. -/
def envC3bug : Env :=
  { envHappy with contactResp := fun _ em =>
      if em == "to@x.com" then .httpError else .netError }

/-- C3: the claim states that whenever the mandatory to-contact lookup
returns the failure sentinel, send_email returns the specific to-contact
failure message and the transport step is never invoked.  The code violates
the message part: with the to lookup returning the sentinel and a supplied
cc whose lookup raises (the api.py handler slip exhibited in the C2 theorem),
send_email returns the generic catch-all message instead of the specific
one.  The transport step is indeed never invoked at this input. -/
theorem c3_bug_eval :
    (get_or_create_alias_contact envC3bug aliasA.id "to@x.com").1 = .ok none ∧
    (send_email envC3bug cfg0 "t1" "t2" "+237" "to@x.com" "s" "b"
        (some "cc@x.com") none).1 = (false, genericFailMsg) ∧
    (send_email envC3bug cfg0 "t1" "t2" "+237" "to@x.com" "s" "b"
        (some "cc@x.com") none).1 ≠ (false, failToContactMsg) ∧
    (∀ e ∈ (send_email envC3bug cfg0 "t1" "t2" "+237" "to@x.com" "s" "b"
        (some "cc@x.com") none).2, isSmtpEvent e = false) := by
  refine ⟨rfl, rfl, by decide, by decide⟩

/-- An environment reproducing the C7 divergence: the alias exists, the
to-contact resolves, the cc-contact lookup fails with an HTTP error (the
sentinel case), and the bcc-contact request fails without a response, so its
handler raises. -/
def envC7bug : Env :=
  { envHappy with contactResp := fun _ em =>
      if em == "to@x.com" then .ok contactTo
      else if em == "cc@x.com" then .httpError
      else .netError }

/-- C7: the claim states that whenever the optional cc contact resolution
fails but the mandatory to contact resolution succeeds, the send proceeds to
the transport step with no Cc header.  The code violates this: when a bcc
recipient is also supplied and its lookup raises (the api.py handler slip
exhibited in the C2 theorem), send_email aborts with the generic message and
the transport step is never reached. -/
theorem c7_bug_eval :
    (get_or_create_alias_contact envC7bug aliasA.id "to@x.com").1 =
      .ok (some contactTo) ∧
    (get_or_create_alias_contact envC7bug aliasA.id "cc@x.com").1 = .ok none ∧
    (send_email envC7bug cfg0 "t1" "t2" "+237" "to@x.com" "s" "b"
        (some "cc@x.com") (some "bcc@x.com")).1 = (false, genericFailMsg) ∧
    (∀ e ∈ (send_email envC7bug cfg0 "t1" "t2" "+237" "to@x.com" "s" "b"
        (some "cc@x.com") (some "bcc@x.com")).2, isSmtpEvent e = false) := by
  refine ⟨rfl, rfl, rfl, by decide⟩

end Bridge
